import Mathlib

/-!
Verification of the `Job` class of `packages/core/src/job-queue/job.ts`.

The class is a small mutable state machine: a Job carries lifecycle state
(PENDING / RUNNING / COMPLETED / FAILED / RETRYING), progress, retry
accounting, timestamps, and per-event listener lists.  We embed it shallowly:

* JavaScript `Date` values become abstract `Nat` timestamps supplied as a
  `now` argument to each operation that reads the clock.
* JavaScript dynamic (`any`) values that flow through `fail(err?)`,
  `complete(result?)` and the `error` / `result` / `data` fields become the
  small dynamic type `JsValue`, with the pieces of JS semantics the source
  actually uses (`String(v)` conversion, optional chaining `err?.message`,
  truthiness) made explicit.
* Event listeners are registered as opaque handles (`Nat`); an operation
  returns, besides the updated Job, the list of listener invocations it
  performs (handle plus the Job value passed to the listener), in invocation
  order.  This models the synchronous `fireEvent` dispatch, under the
  assumption that listeners themselves do not throw.
* A second, `Except`-valued embedding of every operation (`applyOpE`) makes
  exception behaviour explicit: any JS statement that could throw would be
  translated to `Except.error`; the source guards every partial access
  (optional chaining in `fail`, exhaustive listener-table initialisation),
  so no error site remains.
-/

namespace JobQueue

/-- The `JobState` enum of the generated types, as used by `job.ts`. -/
inductive JobState where
  | PENDING
  | RUNNING
  | COMPLETED
  | FAILED
  | RETRYING
deriving DecidableEq

/-- A small model of the JavaScript dynamic values that reach the Job API:
`undefined`, `null`, strings, integer numbers, and `Error`-like objects
carrying a `message` property. -/
inductive JsValue where
  | undefined
  | null
  | str (s : String)
  | num (n : Int)
  | errObj (message : String)
deriving DecidableEq

/-- JavaScript `String(v)` conversion, as used in `String(err)` in `fail`.
`String(new Error(m))` uses `Error.prototype.toString`, which yields
`"Error"` for an empty message and `"Error: " ++ m` otherwise. -/
def jsToString : JsValue → String
  | JsValue.undefined => "undefined"
  | JsValue.null => "null"
  | JsValue.str s => s
  | JsValue.num n => toString n
  | JsValue.errObj m => if m = "" then "Error" else "Error: " ++ m

/-- Optional-chaining member access `v?.message`: `undefined`/`null` yield
`undefined` without throwing; only Error-like objects carry a `message`;
a string or number has no `message` property, so access yields `undefined`. -/
def jsOptMessage : JsValue → JsValue
  | JsValue.errObj m => JsValue.str m
  | _ => JsValue.undefined

/-- JavaScript truthiness, as used by the conditional expression
`err?.message ? err.message : String(err)` in `fail`. -/
def jsTruthy : JsValue → Bool
  | JsValue.undefined => false
  | JsValue.null => false
  | JsValue.str s => s ≠ ""
  | JsValue.num n => n ≠ 0
  | JsValue.errObj _ => true

/-- The value stored into `_error` by `fail(err)`:
`err?.message ? err.message : String(err)`. -/
def failErrorValue (err : JsValue) : JsValue :=
  if jsTruthy (jsOptMessage err) then jsOptMessage err
  else JsValue.str (jsToString err)

/-- The `JobEventType` string-union type with the three event names
(start, complete, fail). -/
inductive JobEventType where
  | start
  | complete
  | fail
deriving DecidableEq

/-- The `eventListeners` table of a Job: one ordered list of registered
listener handles per event type (initialised to three empty lists). -/
structure EventListeners where
  start : List Nat
  complete : List Nat
  fail : List Nat
deriving DecidableEq

/-- The fields of the `Job` class.  Timestamps are abstract `Nat` instants;
numeric fields are `Int` (JS numbers, with only the integral behaviour the
claims exercise); `data`, `result` and `error` are dynamic `JsValue`s. -/
structure Job where
  id : Option Nat
  queueName : String
  retries : Int
  createdAt : Nat
  data : JsValue
  state : JobState
  progress : Int
  result : JsValue
  error : JsValue
  attempts : Int
  startedAt : Option Nat
  settledAt : Option Nat
  eventListeners : EventListeners
deriving DecidableEq

/-- The `isSettled` getter: `!!this._settledAt`. -/
def Job.isSettled (j : Job) : Bool := j.settledAt.isSome

/-- One recorded listener invocation: the listener handle together with the
Job value passed to it (the listener receives `this`, i.e. the Job as
already mutated by the operation that fires the event). -/
structure ListenerCall where
  listener : Nat
  snapshot : Job
deriving DecidableEq

/-- `this.eventListeners[eventType]`. -/
def listenersFor : JobEventType → Job → List Nat
  | JobEventType.start, j => j.eventListeners.start
  | JobEventType.complete, j => j.eventListeners.complete
  | JobEventType.fail, j => j.eventListeners.fail

/-- `fireEvent(eventType)`: invoke every listener registered for the type,
in registration order, passing `this` (the current, already-mutated Job). -/
def fireEvent (t : JobEventType) (j : Job) : List ListenerCall :=
  (listenersFor t j).map (fun l => ⟨l, j⟩)

/-- The `JobConfig<T>` construction input; absent optional fields are `none`
(JS `undefined`).  `result` and `error` are dynamic, so absence is the
`undefined` value itself. -/
structure JobConfig where
  queueName : String
  data : JsValue
  id : Option Nat := none
  state : Option JobState := none
  retries : Option Int := none
  attempts : Option Int := none
  progress : Option Int := none
  createdAt : Option Nat := none
  result : JsValue := JsValue.undefined
  error : JsValue := JsValue.undefined
  startedAt : Option Nat := none
  settledAt : Option Nat := none

/-- The `Job` constructor.  `now` is the `new Date()` used for a missing
`createdAt`.  JS `x || d` yields `d` when `x` is falsy: for the numeric
fields `retries`/`attempts`/`progress` the falsy values are absence and `0`,
both of which yield the default `0`, so `Option.getD 0` is exact; for `id`
the falsy numeric id `0` itself collapses to `null`, which the `match`
reproduces. -/
def mkJob (now : Nat) (config : JobConfig) : Job :=
  { queueName := config.queueName
    data := config.data
    id := match config.id with
          | some i => if i = 0 then none else some i
          | none => none
    state := config.state.getD JobState.PENDING
    retries := config.retries.getD 0
    attempts := config.attempts.getD 0
    progress := config.progress.getD 0
    createdAt := config.createdAt.getD now
    result := config.result
    error := config.error
    startedAt := config.startedAt
    settledAt := config.settledAt
    eventListeners := { start := [], complete := [], fail := [] } }

/-- `start()`: from PENDING or RETRYING, move to RUNNING, set `startedAt`,
increment `attempts`, fire the `start` event; otherwise do nothing. -/
def Job.start (now : Nat) (j : Job) : Job × List ListenerCall :=
  if j.state = JobState.PENDING ∨ j.state = JobState.RETRYING then
    let j' := { j with state := JobState.RUNNING
                       startedAt := some now
                       attempts := j.attempts + 1 }
    (j', fireEvent JobEventType.start j')
  else
    (j, [])

/-- `setProgress(percent)`: `this._progress = Math.min(percent, 100)`.
No event fires. -/
def Job.setProgress (percent : Int) (j : Job) : Job × List ListenerCall :=
  ({ j with progress := min percent 100 }, [])

/-- `complete(result)`: store the result, force progress to 100, move to
COMPLETED, set `settledAt`, fire the `complete` event.  No state guard. -/
def Job.complete (result : JsValue) (now : Nat) (j : Job) : Job × List ListenerCall :=
  let j' := { j with result := result
                     progress := 100
                     state := JobState.COMPLETED
                     settledAt := some now }
  (j', fireEvent JobEventType.complete j')

/-- `fail(err)`: normalise the error, reset progress to 0; if
`retries >= attempts` move to RETRYING (leaving `settledAt` untouched),
otherwise move to FAILED and set `settledAt`; fire the `fail` event.
No state guard. -/
def Job.fail (err : JsValue) (now : Nat) (j : Job) : Job × List ListenerCall :=
  let j1 := { j with error := failErrorValue err, progress := 0 }
  let j' := if j1.retries ≥ j1.attempts then
              { j1 with state := JobState.RETRYING }
            else
              { j1 with state := JobState.FAILED, settledAt := some now }
  (j', fireEvent JobEventType.fail j')

/-- `defer()`: a RUNNING job goes back to PENDING with `attempts` reset to
0; from any other state this is a no-op.  No event fires. -/
def Job.defer (j : Job) : Job × List ListenerCall :=
  if j.state = JobState.RUNNING then
    ({ j with state := JobState.PENDING, attempts := 0 }, [])
  else
    (j, [])

/-- `on(eventType, listener)`: push the listener onto the list for the
event type. -/
def Job.on (eventType : JobEventType) (listener : Nat) (j : Job) : Job :=
  match eventType with
  | JobEventType.start =>
      { j with eventListeners :=
          { j.eventListeners with start := j.eventListeners.start ++ [listener] } }
  | JobEventType.complete =>
      { j with eventListeners :=
          { j.eventListeners with complete := j.eventListeners.complete ++ [listener] } }
  | JobEventType.fail =>
      { j with eventListeners :=
          { j.eventListeners with fail := j.eventListeners.fail ++ [listener] } }

/-- One API call on a Job, with the clock reading it uses (if any). -/
inductive Op where
  | start (now : Nat)
  | setProgress (p : Int)
  | complete (r : JsValue) (now : Nat)
  | fail (e : JsValue) (now : Nat)
  | defer
  | on (t : JobEventType) (l : Nat)
deriving DecidableEq

/-- The Job resulting from one API call (discarding the listener calls). -/
def applyOp : Op → Job → Job
  | Op.start now, j => (j.start now).1
  | Op.setProgress p, j => (j.setProgress p).1
  | Op.complete r now, j => (j.complete r now).1
  | Op.fail e now, j => (j.fail e now).1
  | Op.defer, j => j.defer.1
  | Op.on t l, j => j.on t l

/-- Run a sequence of API calls left to right. -/
def runOps (ops : List Op) (j : Job) : Job :=
  ops.foldl (fun j op => applyOp op j) j

/-- COMPLETED and FAILED are the terminal states. -/
def isTerminal : JobState → Bool
  | JobState.COMPLETED => true
  | JobState.FAILED => true
  | _ => false

/-!
An `Except`-valued re-embedding of each method, statement by statement, in
which every JavaScript construct that could raise becomes an explicit
`Except.error`.  The source has no `throw`; the two places where a throw
could arise in similar code are (a) a bare member access `err.message` on
`undefined`/`null` — but the source uses optional chaining `err?.message`,
embedded by the total `jsOptMessage` — and (b) an indexing
`this.eventListeners[eventType]` on a missing key — but the table is
initialised with all three keys and `eventType` ranges over exactly those,
embedded by the total `listenersFor`.  Listener bodies are not executed
(they are recorded as `ListenerCall`s), matching the assumption that
registered listeners do not themselves throw.
-/

/-- `start()` in the `Except` embedding. -/
def Job.startE (now : Nat) (j : Job) : Except String (Job × List ListenerCall) := do
  if j.state = JobState.PENDING ∨ j.state = JobState.RETRYING then
    let j' := { j with state := JobState.RUNNING
                       startedAt := some now
                       attempts := j.attempts + 1 }
    pure (j', fireEvent JobEventType.start j')
  else
    pure (j, [])

/-- `setProgress(percent)` in the `Except` embedding. -/
def Job.setProgressE (percent : Int) (j : Job) : Except String (Job × List ListenerCall) := do
  pure ({ j with progress := min percent 100 }, [])

/-- `complete(result)` in the `Except` embedding. -/
def Job.completeE (result : JsValue) (now : Nat) (j : Job) :
    Except String (Job × List ListenerCall) := do
  let j' := { j with result := result
                     progress := 100
                     state := JobState.COMPLETED
                     settledAt := some now }
  pure (j', fireEvent JobEventType.complete j')

/-- `fail(err)` in the `Except` embedding.  The member access is the
optional-chaining `jsOptMessage`, which never errors. -/
def Job.failE (err : JsValue) (now : Nat) (j : Job) :
    Except String (Job × List ListenerCall) := do
  let msg := jsOptMessage err
  let j1 := { j with error := if jsTruthy msg then msg else JsValue.str (jsToString err)
                     progress := 0 }
  let j' := if j1.retries ≥ j1.attempts then
              { j1 with state := JobState.RETRYING }
            else
              { j1 with state := JobState.FAILED, settledAt := some now }
  pure (j', fireEvent JobEventType.fail j')

/-- `defer()` in the `Except` embedding. -/
def Job.deferE (j : Job) : Except String (Job × List ListenerCall) := do
  if j.state = JobState.RUNNING then
    pure ({ j with state := JobState.PENDING, attempts := 0 }, [])
  else
    pure (j, [])

/-- `on(eventType, listener)` in the `Except` embedding. -/
def Job.onE (eventType : JobEventType) (listener : Nat) (j : Job) :
    Except String (Job × List ListenerCall) := do
  pure (j.on eventType listener, [])

/-- Dispatch one API call in the `Except` embedding. -/
def applyOpE : Op → Job → Except String (Job × List ListenerCall)
  | Op.start now, j => j.startE now
  | Op.setProgress p, j => j.setProgressE p
  | Op.complete r now, j => j.completeE r now
  | Op.fail e now, j => j.failE e now
  | Op.defer, j => j.deferE
  | Op.on t l, j => j.onE t l

/-!  Concrete jobs used by scenario conjuncts, witnesses and
counterexamples. -/

/-- A freshly constructed job on queue `"q"` with all defaults
(PENDING, retries 0, attempts 0, no timestamps beyond `createdAt`). -/
def jobFresh : Job := mkJob 0 { queueName := "q", data := JsValue.undefined }

/-- A fresh job configured with `retries = 2` (the scenario of the retry
walkthrough in the spec). -/
def jobR2 : Job := mkJob 0 { queueName := "q", data := JsValue.undefined, retries := some 2 }

/-- A job in the RUNNING state with some progress and a recorded start,
as produced by `start()` on a fresh job followed by `setProgress(42)`. -/
def jobRunning : Job := runOps [Op.start 1, Op.setProgress 42] jobFresh

/-- A job in the COMPLETED state, as produced by `complete()` on a fresh
job. -/
def jobDone : Job := runOps [Op.complete (JsValue.str "ok") 3] jobFresh

/-- A fresh job with listeners 10 and 11 registered for `complete` and 20
for `fail`, in that order. -/
def jobListened : Job :=
  ((jobFresh.on JobEventType.complete 10).on JobEventType.complete 11).on JobEventType.fail 20

example : jobRunning.state = JobState.RUNNING ∧ jobRunning.attempts = 1 ∧
    jobRunning.progress = 42 ∧ jobRunning.startedAt = some 1 := by decide

example : jobDone.state = JobState.COMPLETED ∧ jobDone.settledAt = some 3 := by decide

example : (jobListened.complete JsValue.null 7).2 =
    [⟨10, (jobListened.complete JsValue.null 7).1⟩,
     ⟨11, (jobListened.complete JsValue.null 7).1⟩] := by decide

example : (jobFresh.fail JsValue.undefined 2).1.error = JsValue.str "undefined" := by decide

example : (jobFresh.fail (JsValue.errObj "boom") 2).1.error = JsValue.str "boom" := by decide

example :
    (runOps [Op.complete JsValue.undefined 3, Op.fail JsValue.undefined 4] jobFresh).state
      = JobState.RETRYING ∧
    (runOps [Op.complete JsValue.undefined 3, Op.fail JsValue.undefined 4] jobFresh).settledAt
      = some 3 := by decide

/-!  Machinery for the run-level `settledAt` invariant. -/

/-- Per-call side condition of the amended invariant: `fail()` is only ever
invoked on a Job that is not yet settled.  All other calls are
unrestricted. -/
def opGuard : Op → Job → Bool
  | Op.fail _ _, j => j.settledAt.isNone
  | _, _ => true

/-- A run satisfies the side condition when every `fail` in it is applied
to a then-unsettled Job. -/
def failOnlyUnsettled : List Op → Job → Bool
  | [], _ => true
  | op :: rest, j => opGuard op j && failOnlyUnsettled rest (applyOp op j)

/-- The inductive invariant: a Job is either unsettled or in a terminal
state. -/
def settledInv (j : Job) : Prop :=
  j.settledAt = none ∨ j.state = JobState.COMPLETED ∨ j.state = JobState.FAILED

lemma settledInv_applyOp (op : Op) (j : Job) (h : settledInv j)
    (hfail : ∀ e now, op = Op.fail e now → j.settledAt = none) :
    settledInv (applyOp op j) := by
  cases op with
  | start now =>
      simp only [applyOp, Job.start]
      split
      · rename_i hst
        rcases h with h1 | h2 | h2
        · exact Or.inl h1
        · rcases hst with hp | hp <;> rw [hp] at h2 <;> cases h2
        · rcases hst with hp | hp <;> rw [hp] at h2 <;> cases h2
      · exact h
  | setProgress p =>
      simp only [applyOp, Job.setProgress]
      rcases h with h1 | h2 | h2
      · exact Or.inl h1
      · exact Or.inr (Or.inl h2)
      · exact Or.inr (Or.inr h2)
  | complete r now =>
      simp only [applyOp, Job.complete]
      exact Or.inr (Or.inl rfl)
  | fail e now =>
      have hnone : j.settledAt = none := hfail e now rfl
      simp only [applyOp, Job.fail]
      split
      · exact Or.inl hnone
      · exact Or.inr (Or.inr rfl)
  | defer =>
      simp only [applyOp, Job.defer]
      split
      · rename_i hst
        rcases h with h1 | h2 | h2
        · exact Or.inl h1
        · rw [hst] at h2; cases h2
        · rw [hst] at h2; cases h2
      · exact h
  | «on» t l =>
      rcases h with h1 | h2 | h2 <;>
        cases t <;>
          first
            | exact Or.inl h1
            | exact Or.inr (Or.inl h2)
            | exact Or.inr (Or.inr h2)

lemma settledInv_runOps : ∀ (ops : List Op) (j : Job), settledInv j →
    failOnlyUnsettled ops j = true → settledInv (runOps ops j)
  | [], _, h, _ => h
  | op :: rest, j, h, hsafe => by
      rw [failOnlyUnsettled, Bool.and_eq_true] at hsafe
      have hguard : ∀ e now, op = Op.fail e now → j.settledAt = none := by
        intro e now hop
        have := hsafe.1
        rw [hop] at this
        simpa [opGuard, Option.isNone_iff_eq_none] using this
      have hstep := settledInv_applyOp op j h hguard
      have : runOps (op :: rest) j = runOps rest (applyOp op j) := rfl
      rw [this]
      exact settledInv_runOps rest (applyOp op j) hstep hsafe.2

/-- Both branches of `fail` carry the same normalised error value. -/
lemma fail_error_eq (e : JsValue) (now : Nat) (j : Job) :
    (j.fail e now).1.error = failErrorValue e := by
  simp only [Job.fail]
  split <;> rfl

/-- C1: every call to `fail()` resets progress to 0; when
`retries >= attempts` it moves the Job to RETRYING and leaves `settledAt`
untouched, otherwise it moves it to FAILED and sets `settledAt` to the
current time; in both cases it fires the `fail` event to the registered
listeners in order, passing the updated Job.  Concretely, for a job with
`retries = 2`, the failures after attempts 1 and 2 yield RETRYING with
`settledAt` absent and the failure after attempt 3 yields FAILED with
`settledAt` set. -/
theorem C1_fail_transition (e : JsValue) (now : Nat) (j : Job) :
    (j.fail e now).1.progress = 0
    ∧ (j.retries ≥ j.attempts →
        (j.fail e now).1.state = JobState.RETRYING
        ∧ (j.fail e now).1.settledAt = j.settledAt)
    ∧ (¬ j.retries ≥ j.attempts →
        (j.fail e now).1.state = JobState.FAILED
        ∧ (j.fail e now).1.settledAt = some now)
    ∧ (j.fail e now).2 =
        (listenersFor JobEventType.fail j).map (fun l => ⟨l, (j.fail e now).1⟩)
    ∧ ((runOps [Op.start 1, Op.fail JsValue.undefined 2] jobR2).state = JobState.RETRYING
       ∧ (runOps [Op.start 1, Op.fail JsValue.undefined 2] jobR2).settledAt = none
       ∧ (runOps [Op.start 1, Op.fail JsValue.undefined 2, Op.start 3,
            Op.fail JsValue.undefined 4] jobR2).state = JobState.RETRYING
       ∧ (runOps [Op.start 1, Op.fail JsValue.undefined 2, Op.start 3,
            Op.fail JsValue.undefined 4, Op.start 5, Op.fail JsValue.undefined 6] jobR2).state
              = JobState.FAILED
       ∧ (runOps [Op.start 1, Op.fail JsValue.undefined 2, Op.start 3,
            Op.fail JsValue.undefined 4, Op.start 5, Op.fail JsValue.undefined 6] jobR2).settledAt
              = some 6) := by
  refine ⟨?_, ?_, ?_, ?_, by decide⟩
  · simp only [Job.fail]
    split <;> rfl
  · intro h
    simp only [Job.fail]
    split
    · exact ⟨rfl, rfl⟩
    · rename_i hc
      exact absurd h hc
  · intro h
    simp only [Job.fail]
    split
    · rename_i hc
      exact absurd hc h
    · exact ⟨rfl, rfl⟩
  · simp only [Job.fail]
    split <;> rfl

/-- C3: `start()` from PENDING or RETRYING moves the Job to RUNNING,
increments `attempts` by exactly 1, sets `startedAt` to the current time
and fires the `start` event; from RUNNING, COMPLETED or FAILED it leaves
the Job entirely unchanged and fires no event. -/
theorem C3_start_transition (now : Nat) (j : Job) :
    (j.state = JobState.PENDING ∨ j.state = JobState.RETRYING →
        (j.start now).1.state = JobState.RUNNING
        ∧ (j.start now).1.attempts = j.attempts + 1
        ∧ (j.start now).1.startedAt = some now
        ∧ (j.start now).2 =
            (listenersFor JobEventType.start j).map (fun l => ⟨l, (j.start now).1⟩))
    ∧ (j.state = JobState.RUNNING ∨ j.state = JobState.COMPLETED
        ∨ j.state = JobState.FAILED →
        (j.start now).1 = j ∧ (j.start now).2 = []) := by
  constructor
  · intro h
    simp [Job.start, if_pos h, fireEvent, listenersFor]
  · intro h
    have hne : ¬ (j.state = JobState.PENDING ∨ j.state = JobState.RETRYING) := by
      rcases h with h | h | h <;> rw [h] <;> decide
    simp [Job.start, if_neg hne]

/-- C4: `complete(x)` from any state moves the Job to COMPLETED, stores the
result, forces progress to 100 and sets `settledAt` (so `isSettled` holds),
and then invokes each listener registered for the `complete` event exactly
once, in registration order, passing the already-updated Job; registration
via `on` appends to the end of the `complete` listener list. -/
theorem C4_complete_transition (r : JsValue) (now : Nat) (j : Job) :
    (j.complete r now).1.state = JobState.COMPLETED
    ∧ (j.complete r now).1.result = r
    ∧ (j.complete r now).1.progress = 100
    ∧ (j.complete r now).1.settledAt = some now
    ∧ (j.complete r now).1.isSettled = true
    ∧ (j.complete r now).2 =
        (listenersFor JobEventType.complete j).map (fun l => ⟨l, (j.complete r now).1⟩)
    ∧ (∀ l : Nat, listenersFor JobEventType.complete (j.on JobEventType.complete l)
        = listenersFor JobEventType.complete j ++ [l]) :=
  ⟨rfl, rfl, rfl, rfl, rfl, rfl, fun _ => rfl⟩

/-- C5 counterexample: calling `fail()` with no argument does not leave the
error field undefined — it stores the string "undefined" (the result of
`String(undefined)`); likewise an error object whose `message` property is
the empty string (present but falsy) does not get its message stored: the
stringified object "Error" is stored instead. -/
theorem C5_counterexample :
    (jobFresh.fail JsValue.undefined 1).1.error = JsValue.str "undefined"
    ∧ ¬ (jobFresh.fail JsValue.undefined 1).1.error = JsValue.undefined
    ∧ (jobFresh.fail (JsValue.errObj "") 1).1.error = JsValue.str "Error"
    ∧ ¬ (jobFresh.fail (JsValue.errObj "") 1).1.error = JsValue.str "" := by
  decide

/-- C5 (amended): `fail(err)` normalises the error field to a string: if
`err` has a truthy (non-empty) `message` property, that message is stored;
otherwise the stringified form of `err` is stored — in particular a call
with no argument stores the string "undefined".  Both
`fail(new Error("boom"))` and `fail("boom")` store "boom". -/
theorem C5_error_normalization (e : JsValue) (now : Nat) (j : Job) :
    (∀ m : String, e = JsValue.errObj m → m ≠ "" →
        (j.fail e now).1.error = JsValue.str m)
    ∧ (jsTruthy (jsOptMessage e) = false →
        (j.fail e now).1.error = JsValue.str (jsToString e))
    ∧ (j.fail JsValue.undefined now).1.error = JsValue.str "undefined"
    ∧ (j.fail (JsValue.errObj "boom") now).1.error = JsValue.str "boom"
    ∧ (j.fail (JsValue.str "boom") now).1.error = JsValue.str "boom" := by
  refine ⟨?_, ?_, ?_, ?_, ?_⟩
  · intro m he hm
    rw [fail_error_eq, he]
    simp [failErrorValue, jsOptMessage, jsTruthy, hm]
  · intro h
    rw [fail_error_eq]
    simp [failErrorValue, h]
  · rw [fail_error_eq]; decide
  · rw [fail_error_eq]; decide
  · rw [fail_error_eq]; decide

/-- C6: `defer()` moves a RUNNING Job back to PENDING with `attempts` reset
to 0 and no event; from PENDING, COMPLETED, FAILED or RETRYING it is a
no-op that leaves the Job unchanged. -/
theorem C6_defer_transition (j : Job) :
    (j.state = JobState.RUNNING →
        j.defer = ({ j with state := JobState.PENDING, attempts := 0 }, []))
    ∧ (j.state = JobState.PENDING ∨ j.state = JobState.COMPLETED
        ∨ j.state = JobState.FAILED ∨ j.state = JobState.RETRYING →
        j.defer = (j, [])) := by
  constructor
  · intro h
    simp only [Job.defer, if_pos h]
  · intro h
    have hne : ¬ j.state = JobState.RUNNING := by
      rcases h with h | h | h | h <;> rw [h] <;> decide
    simp only [Job.defer, if_neg hne]

/-- C7: `setProgress(p)` sets progress to `min p 100` — clamped above at
100, never clamped below — changes no other field and no state, and fires
no event. -/
theorem C7_setProgress (p : Int) (j : Job) :
    (j.setProgress p).1 = { j with progress := min p 100 }
    ∧ (j.setProgress p).2 = []
    ∧ (p ≤ 100 → (j.setProgress p).1.progress = p)
    ∧ (100 ≤ p → (j.setProgress p).1.progress = 100)
    ∧ (j.setProgress p).1.state = j.state := by
  refine ⟨rfl, rfl, ?_, ?_, rfl⟩
  · intro h
    simp only [Job.setProgress]
    exact min_eq_left h
  · intro h
    simp only [Job.setProgress]
    exact min_eq_right h

/-- The RETRYING branch of `fail`. -/
lemma fail_retry_case (e : JsValue) (now : Nat) (j : Job)
    (hc : j.retries ≥ j.attempts) :
    (j.fail e now).1.state = JobState.RETRYING
    ∧ (j.fail e now).1.settledAt = j.settledAt := by
  simp only [Job.fail]
  rw [if_pos hc]
  exact ⟨rfl, rfl⟩

/-- The FAILED branch of `fail`. -/
lemma fail_failed_case (e : JsValue) (now : Nat) (j : Job)
    (hc : ¬ j.retries ≥ j.attempts) :
    (j.fail e now).1.state = JobState.FAILED
    ∧ (j.fail e now).1.settledAt = some now := by
  simp only [Job.fail]
  rw [if_neg hc]
  exact ⟨rfl, rfl⟩

/-- C2 counterexample: on a Job constructed PENDING with no `settledAt`
(and `retries = 0`), the sequence `complete(); fail()` leaves the Job in
state RETRYING while `settledAt` is still set from the completion — the
unguarded `fail` re-opens a settled Job without clearing `settledAt`. -/
theorem C2_counterexample :
    (runOps [Op.complete JsValue.undefined 3, Op.fail JsValue.undefined 4] jobFresh).state
      = JobState.RETRYING
    ∧ (runOps [Op.complete JsValue.undefined 3, Op.fail JsValue.undefined 4] jobFresh).settledAt
      = some 3
    ∧ jobFresh.state = JobState.PENDING
    ∧ jobFresh.settledAt = none := by
  decide

/-- C2 (amended): for every sequence of operations applied to a Job
constructed PENDING with no `settledAt`, in which `fail()` is never invoked
on an already-settled Job, `settledAt` is set exactly on the terminal
transitions into COMPLETED (by `complete`) or FAILED (by the exhausted
branch of `fail`), is never touched by `start`, `setProgress`, `defer`,
`on`, or the RETRYING branch of `fail`, and is absent whenever the Job is
PENDING, RUNNING or RETRYING. -/
theorem C2_settledAt_invariant (ops : List Op) (j0 : Job)
    (_hstate : j0.state = JobState.PENDING) (hsettled : j0.settledAt = none)
    (hsafe : failOnlyUnsettled ops j0 = true) :
    ((runOps ops j0).state = JobState.PENDING ∨ (runOps ops j0).state = JobState.RUNNING
        ∨ (runOps ops j0).state = JobState.RETRYING →
      (runOps ops j0).settledAt = none)
    ∧ (∀ (r : JsValue) (now : Nat) (j : Job), (j.complete r now).1.settledAt = some now)
    ∧ (∀ (e : JsValue) (now : Nat) (j : Job),
        ((j.fail e now).1.state = JobState.FAILED → (j.fail e now).1.settledAt = some now)
        ∧ ((j.fail e now).1.state = JobState.RETRYING →
            (j.fail e now).1.settledAt = j.settledAt))
    ∧ (∀ (now : Nat) (p : Int) (j : Job),
        (j.start now).1.settledAt = j.settledAt
        ∧ (j.setProgress p).1.settledAt = j.settledAt
        ∧ j.defer.1.settledAt = j.settledAt
        ∧ ∀ (t : JobEventType) (l : Nat), (j.on t l).settledAt = j.settledAt) := by
  refine ⟨?_, fun r now j => rfl, ?_, ?_⟩
  · intro hst
    have hinv := settledInv_runOps ops j0 (Or.inl hsettled) hsafe
    rcases hinv with h1 | h2 | h2
    · exact h1
    · rcases hst with h | h | h <;> rw [h] at h2 <;> cases h2
    · rcases hst with h | h | h <;> rw [h] at h2 <;> cases h2
  · intro e now j
    constructor
    · intro hf
      by_cases hc : j.retries ≥ j.attempts
      · rw [(fail_retry_case e now j hc).1] at hf; cases hf
      · exact (fail_failed_case e now j hc).2
    · intro hf
      by_cases hc : j.retries ≥ j.attempts
      · exact (fail_retry_case e now j hc).2
      · rw [(fail_failed_case e now j hc).1] at hf; cases hf
  · intro now p j
    refine ⟨?_, rfl, ?_, ?_⟩
    · simp only [Job.start]; split <;> rfl
    · simp only [Job.defer]; split <;> rfl
    · intro t l; cases t <;> rfl

/-- C8: no operation ever raises: in the `Except` embedding every call
returns `ok`; in particular the invalid-state calls `start()` on a
COMPLETED Job and `defer()` on a PENDING Job are silent no-ops. -/
theorem C8_no_throw (op : Op) (j : Job) :
    (∃ out, applyOpE op j = Except.ok out)
    ∧ (∀ now : Nat, j.state = JobState.COMPLETED → j.start now = (j, []))
    ∧ (j.state = JobState.PENDING → j.defer = (j, [])) := by
  refine ⟨?_, ?_, ?_⟩
  · cases op with
    | start now =>
        simp only [applyOpE, Job.startE]
        split <;> exact ⟨_, rfl⟩
    | setProgress p => exact ⟨_, rfl⟩
    | complete r now => exact ⟨_, rfl⟩
    | fail e now => exact ⟨_, rfl⟩
    | defer =>
        simp only [applyOpE, Job.deferE]
        split <;> exact ⟨_, rfl⟩
    | «on» t l => exact ⟨_, rfl⟩
  · intro now h
    have hne : ¬ (j.state = JobState.PENDING ∨ j.state = JobState.RETRYING) := by
      rw [h]; decide
    simp only [Job.start, if_neg hne]
  · intro h
    have hne : ¬ j.state = JobState.RUNNING := by rw [h]; decide
    simp only [Job.defer, if_neg hne]

/-- C9: a Job whose `attempts` counter is 0 (freshly constructed or just
deferred) and whose configured `retries` is non-negative — as the data
model requires — always lands in RETRYING when `fail()` is called, with
`settledAt` untouched; consequently `fail` can only produce FAILED once
`attempts` is at least 1, i.e. after at least one `start()`. -/
theorem C9_fail_zero_attempts (e : JsValue) (now : Nat) (j : Job)
    (h0 : j.attempts = 0) (hr : 0 ≤ j.retries) :
    (j.fail e now).1.state = JobState.RETRYING
    ∧ (j.fail e now).1.settledAt = j.settledAt
    ∧ (∀ j' : Job, 0 ≤ j'.retries → (j'.fail e now).1.state = JobState.FAILED →
        1 ≤ j'.attempts) := by
  have hc : j.retries ≥ j.attempts := by rw [h0]; exact hr
  refine ⟨(fail_retry_case e now j hc).1, (fail_retry_case e now j hc).2, ?_⟩
  intro j' hr' hf
  by_cases hc' : j'.retries ≥ j'.attempts
  · rw [(fail_retry_case e now j' hc').1] at hf; cases hf
  · push_neg at hc'
    omega

/-- C10: `defer()` on a RUNNING Job changes only `state` (to PENDING) and
`attempts` (to 0); `startedAt` keeps the timestamp of the interrupted
attempt and `progress`, `result`, `error`, `settledAt` and the registered
listeners are unchanged; no event fires. -/
theorem C10_defer_frame (j : Job) (h : j.state = JobState.RUNNING) :
    j.defer = ({ j with state := JobState.PENDING, attempts := 0 }, [])
    ∧ j.defer.1.startedAt = j.startedAt
    ∧ j.defer.1.progress = j.progress
    ∧ j.defer.1.result = j.result
    ∧ j.defer.1.error = j.error
    ∧ j.defer.1.settledAt = j.settledAt
    ∧ j.defer.1.eventListeners = j.eventListeners
    ∧ j.defer.2 = [] := by
  have he : j.defer = ({ j with state := JobState.PENDING, attempts := 0 }, []) := by
    simp only [Job.defer, if_pos h]
  rw [he]
  exact ⟨rfl, rfl, rfl, rfl, rfl, rfl, rfl, rfl⟩

/-!  Witnesses: each theorem with a hypothesis is instantiated on concrete
inputs, with the hypotheses discharged by evaluation. -/

/-- Witness for C1 on both branches: `jobR2` (retries 2, attempts 0) hits
the RETRYING branch, `jobRunning` (retries 0, attempts 1) the FAILED
branch. -/
theorem C1_fail_transition_witness :
    (jobR2.retries ≥ jobR2.attempts
      ∧ (jobR2.fail JsValue.undefined 5).1.state = JobState.RETRYING
      ∧ (jobR2.fail JsValue.undefined 5).1.settledAt = jobR2.settledAt)
    ∧ (¬ jobRunning.retries ≥ jobRunning.attempts
      ∧ (jobRunning.fail JsValue.undefined 5).1.state = JobState.FAILED
      ∧ (jobRunning.fail JsValue.undefined 5).1.settledAt = some 5) :=
  ⟨⟨by decide,
    ((C1_fail_transition JsValue.undefined 5 jobR2).2.1 (by decide)).1,
    ((C1_fail_transition JsValue.undefined 5 jobR2).2.1 (by decide)).2⟩,
   ⟨by decide,
    ((C1_fail_transition JsValue.undefined 5 jobRunning).2.2.1 (by decide)).1,
    ((C1_fail_transition JsValue.undefined 5 jobRunning).2.2.1 (by decide)).2⟩⟩

/-- Witness for C2 on a concrete safe run: start then fail on a job with
retry budget 2 ends RETRYING and unsettled. -/
theorem C2_settledAt_invariant_witness :
    jobR2.state = JobState.PENDING
    ∧ jobR2.settledAt = none
    ∧ failOnlyUnsettled [Op.start 1, Op.fail JsValue.undefined 2] jobR2 = true
    ∧ (runOps [Op.start 1, Op.fail JsValue.undefined 2] jobR2).state = JobState.RETRYING
    ∧ (runOps [Op.start 1, Op.fail JsValue.undefined 2] jobR2).settledAt = none :=
  ⟨by decide, by decide, by decide, by decide,
    (C2_settledAt_invariant [Op.start 1, Op.fail JsValue.undefined 2] jobR2
        (by decide) (by decide) (by decide)).1
      (Or.inr (Or.inr (by decide)))⟩

/-- Witness for C3 on both branches: a fresh PENDING job starts, a
COMPLETED job does not. -/
theorem C3_start_transition_witness :
    ((jobFresh.state = JobState.PENDING ∨ jobFresh.state = JobState.RETRYING)
      ∧ (jobFresh.start 4).1.state = JobState.RUNNING
      ∧ (jobFresh.start 4).1.attempts = jobFresh.attempts + 1
      ∧ (jobFresh.start 4).1.startedAt = some 4)
    ∧ ((jobDone.state = JobState.RUNNING ∨ jobDone.state = JobState.COMPLETED
          ∨ jobDone.state = JobState.FAILED)
      ∧ (jobDone.start 4).1 = jobDone ∧ (jobDone.start 4).2 = []) :=
  ⟨⟨by decide,
    ((C3_start_transition 4 jobFresh).1 (by decide)).1,
    ((C3_start_transition 4 jobFresh).1 (by decide)).2.1,
    ((C3_start_transition 4 jobFresh).1 (by decide)).2.2.1⟩,
   ⟨by decide,
    ((C3_start_transition 4 jobDone).2 (by decide)).1,
    ((C3_start_transition 4 jobDone).2 (by decide)).2⟩⟩

/-- Witness for C5 on concrete errors: a non-empty message is taken over,
an untruthy message slot falls back to stringification. -/
theorem C5_error_normalization_witness :
    (JsValue.errObj "boom" = JsValue.errObj "boom" ∧ "boom" ≠ ""
      ∧ (jobFresh.fail (JsValue.errObj "boom") 1).1.error = JsValue.str "boom")
    ∧ (jsTruthy (jsOptMessage JsValue.null) = false
      ∧ (jobFresh.fail JsValue.null 1).1.error = JsValue.str (jsToString JsValue.null)) :=
  ⟨⟨rfl, by decide,
    (C5_error_normalization (JsValue.errObj "boom") 1 jobFresh).1 "boom" rfl (by decide)⟩,
   ⟨by decide,
    (C5_error_normalization JsValue.null 1 jobFresh).2.1 (by decide)⟩⟩

/-- Witness for C6 on both branches: a RUNNING job defers to PENDING, a
COMPLETED job is untouched. -/
theorem C6_defer_transition_witness :
    (jobRunning.state = JobState.RUNNING
      ∧ jobRunning.defer =
          ({ jobRunning with state := JobState.PENDING, attempts := 0 }, []))
    ∧ ((jobDone.state = JobState.PENDING ∨ jobDone.state = JobState.COMPLETED
          ∨ jobDone.state = JobState.FAILED ∨ jobDone.state = JobState.RETRYING)
      ∧ jobDone.defer = (jobDone, [])) :=
  ⟨⟨by decide, (C6_defer_transition jobRunning).1 (by decide)⟩,
   ⟨by decide, (C6_defer_transition jobDone).2 (by decide)⟩⟩

/-- Witness for C7 on concrete percentages: 150 clamps to 100, and the
negative value -5 is stored unclamped. -/
theorem C7_setProgress_witness :
    ((-5 : Int) ≤ 100 ∧ (jobFresh.setProgress (-5)).1.progress = -5)
    ∧ ((100 : Int) ≤ 150 ∧ (jobFresh.setProgress 150).1.progress = 100) :=
  ⟨⟨by decide, (C7_setProgress (-5) jobFresh).2.2.1 (by decide)⟩,
   ⟨by decide, (C7_setProgress 150 jobFresh).2.2.2.1 (by decide)⟩⟩

/-- Witness for C8: every call on a COMPLETED job returns ok, and the
invalid-state calls are observed as no-ops on concrete jobs. -/
theorem C8_no_throw_witness :
    (∃ out, applyOpE (Op.start 9) jobDone = Except.ok out)
    ∧ (jobDone.state = JobState.COMPLETED ∧ jobDone.start 9 = (jobDone, []))
    ∧ (jobFresh.state = JobState.PENDING ∧ jobFresh.defer = (jobFresh, [])) :=
  ⟨(C8_no_throw (Op.start 9) jobDone).1,
   ⟨by decide, (C8_no_throw (Op.start 9) jobDone).2.1 9 (by decide)⟩,
   ⟨by decide, (C8_no_throw (Op.start 9) jobFresh).2.2 (by decide)⟩⟩

/-- Witness for C9 on a fresh job: attempts 0, retries 0, `fail` lands in
RETRYING with `settledAt` still absent. -/
theorem C9_fail_zero_attempts_witness :
    jobFresh.attempts = 0 ∧ (0 : Int) ≤ jobFresh.retries
    ∧ (jobFresh.fail JsValue.undefined 2).1.state = JobState.RETRYING
    ∧ (jobFresh.fail JsValue.undefined 2).1.settledAt = jobFresh.settledAt :=
  ⟨by decide, by decide,
   (C9_fail_zero_attempts JsValue.undefined 2 jobFresh (by decide) (by decide)).1,
   (C9_fail_zero_attempts JsValue.undefined 2 jobFresh (by decide) (by decide)).2.1⟩

/-- Witness for C10 on a concrete RUNNING job with progress 42 and a
recorded start: defer keeps `startedAt` and `progress`. -/
theorem C10_defer_frame_witness :
    jobRunning.state = JobState.RUNNING
    ∧ jobRunning.defer =
        ({ jobRunning with state := JobState.PENDING, attempts := 0 }, [])
    ∧ jobRunning.defer.1.startedAt = some 1
    ∧ jobRunning.defer.1.progress = 42 :=
  ⟨by decide,
   (C10_defer_frame jobRunning (by decide)).1,
   by rw [(C10_defer_frame jobRunning (by decide)).2.1]; decide,
   by rw [(C10_defer_frame jobRunning (by decide)).2.2.1]; decide⟩

end JobQueue
